import Mathlib

/-!
# A shallow embedding of the sageDB vector-store core

This file embeds the core of the `sage_db` C++ engine
(`src/vector_store.cpp`, `src/sage_db.cpp`) in Lean 4 and proves, or
refutes, the specified properties of the engine.

Modelling conventions:

* 32-bit floats are modelled exactly as rationals (`ℚ`).  `std::sqrt` is
  modelled by `Rat.sqrt`, which agrees with the real square root on
  perfect squares; every concrete instance evaluated below uses only
  perfect-square arguments, where the model is exact.
* `uint64_t` identifiers are modelled as `Nat`; the counters involved
  never approach `2^64` in any statement proved here, so wrap-around is
  irrelevant.
* `std::unordered_map<VectorId, Vector> id_to_vector_` is modelled as an
  association list in insertion order (its C++ iteration order is
  unspecified; no theorem below depends on the iteration order of a map
  holding more than one entry unless all orders give the same result).
* `std::sort` (unstable, strict comparator) is modelled by a stable
  insertion sort over the non-strict closure of the comparator; the
  source leaves the relative order of tied elements unspecified, and the
  concrete instances below are tie-free.
* C++ exceptions (`SageDBException`) are modelled with `Except`: each
  mutating operation returns the error raised (if any) together with the
  state as mutated up to the point of the raise, mirroring the statement
  order of the source.
* The FAISS library is an external collaborator.  A `faiss::Index` is
  modelled abstractly as its trained flag plus its ordered row contents
  (`FaissIndex`); `index->train` sets the flag, `index->add` appends
  rows, and `index->search` is a parameter wherever its results matter.
  `faiss::write_index`/`read_index` round-trip the index value.
-/

namespace SageDBModel

/-- `VectorId`: `uint64_t` engine-assigned identifier (0 = unassigned sentinel). -/
abbrev VectorId := Nat

/-- `Vector`: `std::vector<float>`, floats modelled exactly as rationals. -/
abbrev Vec := List ℚ

/-- `Score`: the per-result score (a float in the source). -/
abbrev Score := ℚ

/-- `DistanceMetric` from `common.h`. -/
inductive DistanceMetric where
  | L2
  | INNER_PRODUCT
  | COSINE
deriving DecidableEq, Repr

/-- `IndexType` from `common.h`. -/
inductive IndexType where
  | FLAT
  | IVF_FLAT
  | IVF_PQ
  | HNSW
  | AUTO
deriving DecidableEq, Repr

/-- `DatabaseConfig`: immutable store configuration. -/
structure DatabaseConfig where
  dimension : Nat
  index_type : IndexType
  metric : DistanceMetric
  nlist : Nat
deriving DecidableEq, Repr

/-- The error kinds raised through `SageDBException`; the source carries a
human message, the model carries the kind. -/
inductive SageErr where
  | dimensionMismatch
  | notTrained
  | inputSizeMismatch
  | distanceDimMismatch
deriving DecidableEq, Repr

deriving instance DecidableEq for Except

/-- Metadata: `map<string, MetadataValue>` with value-level equality,
modelled as an association list of string pairs. -/
abbrev Metadata := List (String × String)

/-- `SearchParams` (the fields the embedded paths read). -/
structure SearchParams where
  k : Nat
  include_metadata : Bool := false
deriving DecidableEq, Repr

/-- `QueryResult {id, score, metadata}`. -/
structure QueryResult where
  id : VectorId
  score : Score
  metadata : Metadata := []
deriving DecidableEq, Repr

/-- `VectorStore::Impl::compute_distance` (vector_store.cpp:534-567):
throws when sizes differ, else L2 = `sqrt (Σ (aᵢ-bᵢ)²)`, inner product =
`Σ aᵢbᵢ`, cosine = `1 - dot / (sqrt ‖a‖² * sqrt ‖b‖²)`. -/
def compute_distance (metric : DistanceMetric) (a b : Vec) : Except SageErr ℚ :=
  if a.length ≠ b.length then
    .error .distanceDimMismatch
  else
    .ok (match metric with
      | .L2 => Rat.sqrt ((List.zipWith (fun x y => (x - y) * (x - y)) a b).sum)
      | .INNER_PRODUCT => (List.zipWith (· * ·) a b).sum
      | .COSINE =>
          let dot := (List.zipWith (· * ·) a b).sum
          let norm_a := (a.map (fun x => x * x)).sum
          let norm_b := (b.map (fun x => x * x)).sum
          1 - dot / (Rat.sqrt norm_a * Rat.sqrt norm_b))

/-- Scoring loop of `search_fallback`: one `(distance, id)` pair per stored
entry, propagating the `compute_distance` throw. -/
def scoreEntries (metric : DistanceMetric) (query : Vec) :
    List (VectorId × Vec) → Except SageErr (List (ℚ × VectorId))
  | [] => .ok []
  | p :: rest =>
    match compute_distance metric query p.2 with
    | .error e => .error e
    | .ok d =>
      match scoreEntries metric query rest with
      | .error e => .error e
      | .ok l => .ok ((d, p.1) :: l)

/-- Insert into a list sorted by the boolean relation `le` (model of the
ordering produced by `std::sort`). -/
def sortedInsert (le : α → α → Bool) (x : α) : List α → List α
  | [] => [x]
  | y :: ys => if le x y then x :: y :: ys else y :: sortedInsert le x ys

/-- Sorting by the boolean relation `le`; models `std::sort` (which leaves
tie order unspecified — the concrete inputs below are tie-free). -/
def sortBy (le : α → α → Bool) : List α → List α
  | [] => []
  | x :: xs => sortedInsert le x (sortBy le xs)

/-- The comparator of `search_fallback` (vector_store.cpp:516-521):
`ascending = (metric == L2)`, then `ascending ? a.first < b.first
: a.first > b.first`, closed to its non-strict form for sorting. -/
def fallbackLe (metric : DistanceMetric) (a b : ℚ × VectorId) : Bool :=
  if metric = DistanceMetric.L2 then a.1 ≤ b.1 else b.1 ≤ a.1

/-- `VectorStore::Impl::search_fallback` (vector_store.cpp:501-532): score
every stored entry, sort (ascending only for L2), return the first
`min k size` as `QueryResult`s. -/
def search_fallback (metric : DistanceMetric) (entries : List (VectorId × Vec))
    (query : Vec) (params : SearchParams) : Except SageErr (List QueryResult) :=
  match scoreEntries metric query entries with
  | .error e => .error e
  | .ok scored =>
    let sorted := sortBy (fallbackLe metric) scored
    .ok ((sorted.take params.k).map (fun p => { id := p.2, score := p.1 }))

/-! ## The store of the build without FAISS

When `FAISS_AVAILABLE` is not defined, `VectorStore::Impl` keeps only
`vectors_ : std::vector<pair<VectorId, Vector>>` plus `next_id_`, every
search runs `search_fallback`, and `is_trained()` is constantly `true`. -/

/-- `VectorStore::Impl` state in the fallback (no-FAISS) build:
`next_id_` and `vectors_`. -/
structure FallbackStore where
  config : DatabaseConfig
  next_id : VectorId
  vectors : List (VectorId × Vec)
deriving DecidableEq, Repr

/-- A freshly constructed fallback-build store (`next_id_{1}`, empty
`vectors_`). -/
def FallbackStore.init (cfg : DatabaseConfig) : FallbackStore :=
  { config := cfg, next_id := 1, vectors := [] }

/-- `VectorStore::validate_vector` (vector_store.cpp:630-636). -/
def validate_vector (cfg : DatabaseConfig) (v : Vec) : Except SageErr Unit :=
  if v.length ≠ cfg.dimension then .error .dimensionMismatch else .ok ()

/-- `VectorStore::add_vector` in the fallback build: validate, then
`id = next_id_++; vectors_.emplace_back(id, vector)`. -/
def FallbackStore.add_vector (st : FallbackStore) (v : Vec) :
    Except SageErr VectorId × FallbackStore :=
  match validate_vector st.config v with
  | .error e => (.error e, st)
  | .ok _ =>
    (.ok st.next_id,
     { st with next_id := st.next_id + 1, vectors := st.vectors ++ [(st.next_id, v)] })

/-- `VectorStore::add_vectors` in the fallback build: validate every
vector first (VectorStore::add_vectors, vector_store.cpp:585-590), then
assign consecutive ids. -/
def FallbackStore.add_vectors (st : FallbackStore) (vs : List Vec) :
    Except SageErr (List VectorId) × FallbackStore :=
  if vs.any (fun v => v.length ≠ st.config.dimension) then
    (.error .dimensionMismatch, st)
  else
    let ids := List.range' st.next_id vs.length
    (.ok ids,
     { st with next_id := st.next_id + vs.length, vectors := st.vectors ++ ids.zip vs })

/-- `VectorStore::search` in the fallback build (vector_store.cpp:592-596):
validate the query, `ensure_trained` (always satisfied: `is_trained()`
returns `true` without FAISS), then `search_fallback` over `vectors_`. -/
def FallbackStore.search (st : FallbackStore) (query : Vec) (params : SearchParams) :
    Except SageErr (List QueryResult) :=
  match validate_vector st.config query with
  | .error e => .error e
  | .ok _ => search_fallback st.config.metric st.vectors query params

/-- `VectorStore::Impl::save` in the fallback build (vector_store.cpp:193-205):
the `[count][id, len, floats…]` record stream, modelled as its record
list. -/
def FallbackStore.save (st : FallbackStore) : List (VectorId × Vec) :=
  st.vectors

/-- `VectorStore::Impl::load` in the fallback build (vector_store.cpp:252-271):
if the file opens, clear `vectors_`, read every record back and raise
`next_id_` to `max(next_id_, id+1)` (no reset to 1 in this build);
a missing file (`none`) leaves the state untouched. -/
def FallbackStore.load (st : FallbackStore) (file : Option (List (VectorId × Vec))) :
    FallbackStore :=
  match file with
  | none => st
  | some recs =>
    { st with vectors := recs,
              next_id := recs.foldl (fun n r => max n (r.1 + 1)) st.next_id }

/-! ## Metadata store and query engine (spec-modelled)

`metadata_store.cpp` and `query_engine.cpp` are not part of the sources
at hand; only their declarations and call sites are.  The operations the
claims need are modelled from the spec. -/

/-- Modelled from the spec: the `MetadataStore` implementation is missing
from the sources; §4.3 specifies an in-memory `VectorId → Metadata` map
with upsert (full replace), fetch by id with absence marked, O(1) delete
by id, and a stable save/load encoding of its entries. -/
structure MetadataStore where
  entries : List (VectorId × Metadata)
deriving DecidableEq, Repr

/-- Modelled from the spec: `MetadataStore::set_metadata` — upsert with
full replacement of the previous entry for the id. -/
def MetadataStore.set_metadata (ms : MetadataStore) (id : VectorId) (md : Metadata) :
    MetadataStore :=
  if ms.entries.any (fun e => e.1 = id) then
    { entries := ms.entries.map (fun e => if e.1 = id then (id, md) else e) }
  else
    { entries := ms.entries ++ [(id, md)] }

/-- Modelled from the spec: `MetadataStore::get_metadata` — fetch by id,
absence marked (`none` ↔ the C++ `bool` result `false`). -/
def MetadataStore.get_metadata (ms : MetadataStore) (id : VectorId) : Option Metadata :=
  (ms.entries.find? (fun e => e.1 = id)).map (·.2)

/-- Modelled from the spec: `MetadataStore::remove_metadata` — delete by
id, idempotent. -/
def MetadataStore.remove_metadata (ms : MetadataStore) (id : VectorId) : MetadataStore :=
  { entries := ms.entries.filter (fun e => e.1 ≠ id) }

/-- Modelled from the spec: `MetadataStore::set_batch_metadata` — aligned
batch upsert. -/
def MetadataStore.set_batch_metadata (ms : MetadataStore)
    (ids : List VectorId) (mds : List Metadata) : MetadataStore :=
  (ids.zip mds).foldl (fun acc p => acc.set_metadata p.1 p.2) ms

/-- Modelled from the spec: `MetadataStore::save` — §4.3's stable binary
encoding of the entries, modelled as the entry list itself. -/
def MetadataStore.save (ms : MetadataStore) : List (VectorId × Metadata) :=
  ms.entries

/-- Modelled from the spec: `MetadataStore::load` — decode the entries;
a missing file leaves the fresh store empty. -/
def MetadataStore.load (ms : MetadataStore) (file : Option (List (VectorId × Metadata))) :
    MetadataStore :=
  match file with
  | none => ms
  | some recs => { entries := recs }

/-- Modelled from the spec: `QueryEngine::search` — §4.4: "pure ANN
search; attach metadata if `include_metadata`"; it delegates to the
vector store's `search` and joins each result with its metadata,
tolerating the absent side. -/
def QueryEngine.search (vs : FallbackStore) (ms : MetadataStore)
    (query : Vec) (params : SearchParams) : Except SageErr (List QueryResult) :=
  match vs.search query params with
  | .error e => .error e
  | .ok results =>
    .ok (if params.include_metadata then
           results.map (fun r => { r with metadata := (ms.get_metadata r.id).getD [] })
         else results)

/-! ## The `SageDB` facade (sage_db.cpp), over the fallback-build store -/

/-- `SageDB` state: config plus the three components (the query engine
holds no state of its own). -/
structure SageDB where
  config : DatabaseConfig
  vector_store : FallbackStore
  metadata_store : MetadataStore
deriving DecidableEq, Repr

/-- `SageDB::SageDB` (sage_db.cpp:7-16): fresh components. -/
def SageDB.init (cfg : DatabaseConfig) : SageDB :=
  { config := cfg,
    vector_store := FallbackStore.init cfg,
    metadata_store := { entries := [] } }

/-- `SageDB::validate_dimension` (sage_db.cpp:210-216). -/
def SageDB.validate_dimension (db : SageDB) (v : Vec) : Except SageErr Unit :=
  if v.length ≠ db.config.dimension then .error .dimensionMismatch else .ok ()

/-- `SageDB::add` (sage_db.cpp:18-28): validate, add the vector, and set
metadata only when the map is non-empty. -/
def SageDB.add (db : SageDB) (v : Vec) (md : Metadata) :
    Except SageErr VectorId × SageDB :=
  match db.validate_dimension v with
  | .error e => (.error e, db)
  | .ok _ =>
    match db.vector_store.add_vector v with
    | (.error e, vs) => (.error e, { db with vector_store := vs })
    | (.ok id, vs) =>
      (.ok id,
       { db with vector_store := vs,
                 metadata_store :=
                   if md.isEmpty then db.metadata_store
                   else db.metadata_store.set_metadata id md })

/-- `SageDB::ensure_consistent_metadata` (sage_db.cpp:218-223). -/
def SageDB.ensure_consistent_metadata (vs : List Vec) (mds : List Metadata) :
    Except SageErr Unit :=
  if vs.length ≠ mds.length then .error .inputSizeMismatch else .ok ()

/-- `SageDB::add_batch` (sage_db.cpp:30-47): alignment check first (only
when metadata is supplied), then dimension validation of every vector,
then the batch insert, then batch metadata. -/
def SageDB.add_batch (db : SageDB) (vs : List Vec) (mds : List Metadata) :
    Except SageErr (List VectorId) × SageDB :=
  match (if mds.isEmpty then .ok () else SageDB.ensure_consistent_metadata vs mds :
         Except SageErr Unit) with
  | .error e => (.error e, db)
  | .ok _ =>
    if vs.any (fun v => v.length ≠ db.config.dimension) then
      (.error .dimensionMismatch, db)
    else
      match db.vector_store.add_vectors vs with
      | (.error e, vstore) => (.error e, { db with vector_store := vstore })
      | (.ok ids, vstore) =>
        (.ok ids,
         { db with vector_store := vstore,
                   metadata_store :=
                     if mds.isEmpty then db.metadata_store
                     else db.metadata_store.set_batch_metadata ids mds })

/-- `SageDB::remove` (sage_db.cpp:49-55): deletes the metadata for the id
and nothing else (vector removal is an unimplemented TODO); returns
`true`. -/
def SageDB.remove (db : SageDB) (id : VectorId) : Bool × SageDB :=
  (true, { db with metadata_store := db.metadata_store.remove_metadata id })

/-- `SageDB::update` (sage_db.cpp:57-68): validate the vector; only
metadata is updated (and only when non-empty). -/
def SageDB.update (db : SageDB) (id : VectorId) (v : Vec) (md : Metadata) :
    Except SageErr Bool × SageDB :=
  match db.validate_dimension v with
  | .error e => (.error e, db)
  | .ok _ =>
    if md.isEmpty then (.ok false, db)
    else (.ok true, { db with metadata_store := db.metadata_store.set_metadata id md })

/-- `SageDB::search` (sage_db.cpp:79-82): validate the query, then the
query engine. -/
def SageDB.search (db : SageDB) (query : Vec) (params : SearchParams) :
    Except SageErr (List QueryResult) :=
  match db.validate_dimension query with
  | .error e => .error e
  | .ok _ => QueryEngine.search db.vector_store db.metadata_store query params

/-- `SageDB::train_index` (sage_db.cpp:107-114): validate each training
vector when data was supplied; the fallback-build store's `train_index`
body is FAISS-only, hence a no-op here. -/
def SageDB.train_index (db : SageDB) (training_data : List Vec) :
    Except SageErr Unit × SageDB :=
  if ¬ training_data.isEmpty ∧
      training_data.any (fun v => v.length ≠ db.config.dimension) then
    (.error .dimensionMismatch, db)
  else
    (.ok (), db)

/-- `SageDB::get_metadata` (sage_db.cpp:125-127). -/
def SageDB.get_metadata (db : SageDB) (id : VectorId) : Option Metadata :=
  db.metadata_store.get_metadata id

/-- The artifacts `SageDB::save` writes for base path `P` (sage_db.cpp:
134-150): `P.vectors`, `P.metadata`, `P.config`. -/
structure SageFiles where
  vectorsFile : Option (List (VectorId × Vec))
  metadataFile : Option (List (VectorId × Metadata))
  configFile : Option DatabaseConfig
deriving DecidableEq, Repr

/-- `SageDB::save` (sage_db.cpp:134-150). -/
def SageDB.save (db : SageDB) : SageFiles :=
  { vectorsFile := some db.vector_store.save,
    metadataFile := some db.metadata_store.save,
    configFile := some db.config }

/-- `SageDB::load` (sage_db.cpp:152-192): read the config file when
present, then unconditionally recreate fresh components with that
config, then load the vectors and metadata files into the fresh
components. -/
def SageDB.load (db : SageDB) (files : SageFiles) : SageDB :=
  let cfg := files.configFile.getD db.config
  let fresh := SageDB.init cfg
  { fresh with
      vector_store := fresh.vector_store.load files.vectorsFile,
      metadata_store := fresh.metadata_store.load files.metadataFile }

/-- `SageDB::size` (sage_db.cpp:194-196), fallback build: `vectors_.size()`. -/
def SageDB.size (db : SageDB) : Nat :=
  db.vector_store.vectors.length

/-! ## The store of the FAISS build

With `FAISS_AVAILABLE`, `VectorStore::Impl` additionally owns a
`faiss::Index`, the cache `id_to_vector_`, the row→id mapping
`faiss_to_custom_id_` and the trained flag `is_trained_`; `vectors_`
serves as the pre-training staging buffer. -/

/-- Abstract model of a `faiss::Index`: its trained flag and its rows in
insertion order.  (`IndexFlat.is_trained` is `true` from construction;
the IVF indices start untrained; `train` flips the flag; `add` appends
rows; `ntotal` is the row count.) -/
structure FaissIndex where
  is_trained : Bool
  rows : List Vec
deriving DecidableEq, Repr

/-- `VectorStore::Impl::create_index` (vector_store.cpp:370-399): FLAT and
the AUTO/HNSW default construct a flat index (trained from birth); the
IVF kinds construct an untrained IVF index. -/
def create_index (cfg : DatabaseConfig) : FaissIndex :=
  match cfg.index_type with
  | .IVF_FLAT => { is_trained := false, rows := [] }
  | .IVF_PQ => { is_trained := false, rows := [] }
  | _ => { is_trained := true, rows := [] }

/-- `VectorStore::Impl` state in the FAISS build. -/
structure FaissStore where
  config : DatabaseConfig
  next_id : VectorId
  index : FaissIndex
  id_to_vector : List (VectorId × Vec)
  faiss_to_custom_id : List VectorId
  staging : List (VectorId × Vec)
  trained_flag : Bool
deriving DecidableEq, Repr

/-- A freshly constructed FAISS-build store (vector_store.cpp:24-31,
274-287): `next_id_{1}`, `is_trained_ = false`, index from
`create_index`. -/
def FaissStore.init (cfg : DatabaseConfig) : FaissStore :=
  { config := cfg, next_id := 1, index := create_index cfg,
    id_to_vector := [], faiss_to_custom_id := [], staging := [],
    trained_flag := false }

/-- `VectorStore::is_trained` in the FAISS build (vector_store.cpp:134-140):
`!index_ || index_->is_trained`; construction always creates the index. -/
def FaissStore.is_trained (st : FaissStore) : Bool :=
  st.index.is_trained

/-- `VectorStore::Impl::add_vector` in the FAISS build
(vector_store.cpp:35-57): with a trained index the row goes straight into
FAISS with `faiss_to_custom_id_` appended in lockstep; with an untrained
index the pair is staged in `vectors_`; `id_to_vector_` records the
vector in both cases. -/
def FaissStore.add_vector_impl (st : FaissStore) (v : Vec) : VectorId × FaissStore :=
  if st.index.is_trained then
    (st.next_id,
     { st with next_id := st.next_id + 1,
               index := { st.index with rows := st.index.rows ++ [v] },
               id_to_vector := st.id_to_vector ++ [(st.next_id, v)],
               faiss_to_custom_id := st.faiss_to_custom_id ++ [st.next_id] })
  else
    (st.next_id,
     { st with next_id := st.next_id + 1,
               id_to_vector := st.id_to_vector ++ [(st.next_id, v)],
               staging := st.staging ++ [(st.next_id, v)] })

/-- `VectorStore::add_vector` in the FAISS build: `validate_vector` then
the impl. -/
def FaissStore.add_vector (st : FaissStore) (v : Vec) :
    Except SageErr VectorId × FaissStore :=
  match validate_vector st.config v with
  | .error e => (.error e, st)
  | .ok _ =>
    let (id, st') := st.add_vector_impl v
    (.ok id, st')

/-- `VectorStore::Impl::add_vectors` in the FAISS build
(vector_store.cpp:59-100): consecutive ids in batch order; with a trained
index the batch is appended to FAISS and to `faiss_to_custom_id_`,
otherwise it is staged. -/
def FaissStore.add_vectors_impl (st : FaissStore) (vs : List Vec) :
    List VectorId × FaissStore :=
  let ids := List.range' st.next_id vs.length
  if st.index.is_trained then
    (ids,
     { st with next_id := st.next_id + vs.length,
               index := { st.index with rows := st.index.rows ++ vs },
               id_to_vector := st.id_to_vector ++ ids.zip vs,
               faiss_to_custom_id := st.faiss_to_custom_id ++ ids })
  else
    (ids,
     { st with next_id := st.next_id + vs.length,
               id_to_vector := st.id_to_vector ++ ids.zip vs,
               staging := st.staging ++ ids.zip vs })

/-- `VectorStore::add_vectors` in the FAISS build: validate every vector,
then the impl. -/
def FaissStore.add_vectors (st : FaissStore) (vs : List Vec) :
    Except SageErr (List VectorId) × FaissStore :=
  if vs.any (fun v => v.length ≠ st.config.dimension) then
    (.error .dimensionMismatch, st)
  else
    let (ids, st') := st.add_vectors_impl vs
    (.ok ids, st')

/-- `VectorStore::Impl::transfer_vectors_to_faiss` (vector_store.cpp:
474-497): early return unless the index is present, `is_trained_` is set
and `vectors_` is non-empty; otherwise append every staged id to
`faiss_to_custom_id_`, bulk-add the staged vectors to FAISS and clear
the staging buffer. -/
def FaissStore.transfer_vectors_to_faiss (st : FaissStore) : FaissStore :=
  if ¬ st.trained_flag ∨ st.staging.isEmpty then st
  else
    { st with faiss_to_custom_id := st.faiss_to_custom_id ++ st.staging.map (·.1),
              index := { st.index with rows := st.index.rows ++ st.staging.map (·.2) },
              staging := [] }

/-- `VectorStore::Impl::train_index_with_data` (vector_store.cpp:455-472):
no-op when `is_trained_` is already set or the data is empty; otherwise
`index_->train(...)`, set `is_trained_`, then transfer the staged
vectors. -/
def FaissStore.train_index_with_data (st : FaissStore) (training_data : List Vec) :
    FaissStore :=
  if st.trained_flag ∨ training_data.isEmpty then st
  else
    ({ st with index := { st.index with is_trained := true }, trained_flag := true
     } : FaissStore).transfer_vectors_to_faiss

/-- `VectorStore::Impl::train_index` (vector_store.cpp:125-132): with
non-empty explicit data, `train_index_with_data`; with empty data,
nothing at all. -/
def FaissStore.train_index (st : FaissStore) (training_data : List Vec) : FaissStore :=
  if ¬ training_data.isEmpty then st.train_index_with_data training_data else st

/-- `VectorStore::Impl::train_index_internal` (vector_store.cpp:436-453):
no-op when already trained or `id_to_vector_` is empty; otherwise train
on the contents of `id_to_vector_`, set the flag and transfer. -/
def FaissStore.train_index_internal (st : FaissStore) : FaissStore :=
  if st.trained_flag ∨ st.id_to_vector.isEmpty then st
  else
    ({ st with index := { st.index with is_trained := true }, trained_flag := true
     } : FaissStore).transfer_vectors_to_faiss

/-- `VectorStore::Impl::build_index` (vector_store.cpp:113-123): for the
IVF kinds, once `id_to_vector_` has reached `nlist` and the flag is not
yet set, train from `id_to_vector_`. -/
def FaissStore.build_index (st : FaissStore) : FaissStore :=
  if (st.config.index_type = IndexType.IVF_FLAT ∨
      st.config.index_type = IndexType.IVF_PQ) ∧
     ¬ st.trained_flag ∧ st.config.nlist ≤ st.id_to_vector.length then
    st.train_index_internal
  else st

/-- `VectorStore::Impl::search_faiss` (vector_store.cpp:401-434), with the
external `index_->search` results supplied as `hits` (row, distance)
pairs: keep the prefix with non-negative rows, translate rows through
`faiss_to_custom_id_` (rows beyond the mapping are discarded), and
negate the score for inner product. -/
def FaissStore.search_faiss (st : FaissStore) (hits : List (Int × ℚ)) :
    List QueryResult :=
  (hits.takeWhile (fun h => 0 ≤ h.1)).filterMap (fun h =>
    if h.1.toNat < st.faiss_to_custom_id.length then
      some { id := st.faiss_to_custom_id.getD h.1.toNat 0,
             score := if st.config.metric = DistanceMetric.INNER_PRODUCT
                      then -h.2 else h.2 }
    else none)

/-- `VectorStore::search` in the FAISS build (vector_store.cpp:592-596,
102-111): validate the query, `ensure_trained` (vector_store.cpp:638-642)
which throws `NotTrained` when `is_trained()` is false, then — the index
being always present — `search_faiss`.  The external `index_->search`
call is the parameter `ann`. -/
def FaissStore.search (ann : FaissIndex → Vec → Nat → List (Int × ℚ))
    (st : FaissStore) (query : Vec) (params : SearchParams) :
    Except SageErr (List QueryResult) :=
  match validate_vector st.config query with
  | .error e => .error e
  | .ok _ =>
    if ¬ st.is_trained then .error .notTrained
    else .ok (st.search_faiss (ann st.index query params.k))

/-- The artifacts `VectorStore::Impl::save` writes in the FAISS build
(vector_store.cpp:151-192): the index blob, the `.ids` record stream and
the optional `.order` sequence. -/
structure FaissFiles where
  indexBlob : FaissIndex
  idsFile : List (VectorId × Vec)
  orderFile : Option (List VectorId)
deriving DecidableEq, Repr

/-- `VectorStore::Impl::save` in the FAISS build (vector_store.cpp:151-192):
the index blob via `faiss::write_index`; the `.ids` records iterated in
`faiss_to_custom_id_` order (skipping ids absent from `id_to_vector_`)
when the mapping is non-empty, else in `id_to_vector_` order; the
`.order` file only when the mapping is non-empty. -/
def FaissStore.save (st : FaissStore) : FaissFiles :=
  { indexBlob := st.index,
    idsFile :=
      if st.id_to_vector.isEmpty then []
      else if ¬ st.faiss_to_custom_id.isEmpty then
        st.faiss_to_custom_id.filterMap (fun id =>
          ((st.id_to_vector.find? (fun e => e.1 = id)).map (·.2)).map ((id, ·)))
      else st.id_to_vector,
    orderFile :=
      if ¬ st.faiss_to_custom_id.isEmpty then some st.faiss_to_custom_id else none }

/-- `VectorStore::Impl::rebuild_faiss_mapping_from_index`
(vector_store.cpp:296-368), without the (semantically transparent) hash
acceleration: per reconstructed row, the first unused id whose stored
vector equals the row; else the first unused id; else the fresh id
`row+1`.  Candidate order inside the C++ `unordered_(multi)map` is
unspecified; the model iterates `id_to_vector_` in insertion order. -/
def rebuildStep (idv : List (VectorId × Vec)) (used : List VectorId) (row : Nat) (v : Vec) :
    VectorId :=
  match idv.find? (fun e => e.2 = v ∧ ¬ used.contains e.1) with
  | some e => e.1
  | none =>
    match idv.find? (fun e => ¬ used.contains e.1) with
    | some e => e.1
    | none => row + 1

/-- The loop of `rebuild_faiss_mapping_from_index` over the reconstructed
rows. -/
def rebuildLoop (idv : List (VectorId × Vec)) (used : List VectorId) (row : Nat) :
    List Vec → List VectorId
  | [] => []
  | v :: rest =>
    let id := rebuildStep idv used row v
    id :: rebuildLoop idv (used ++ [id]) (row + 1) rest

/-- `rebuild_faiss_mapping_from_index` (vector_store.cpp:296-368): empty
when the index holds no rows, else the matching loop. -/
def FaissStore.rebuild_faiss_mapping_from_index (st : FaissStore) : List VectorId :=
  if st.index.rows.isEmpty then []
  else rebuildLoop st.id_to_vector [] 0 st.index.rows

/-- `VectorStore::Impl::load` in the FAISS build (vector_store.cpp:208-251):
read the index blob (`is_trained_ := index->is_trained`), reset
`next_id_` to 1 and read the `.ids` records into **both** `id_to_vector_`
and `vectors_`, raising `next_id_` past every id; clear the mapping and
read the `.order` file when present, else rebuild the mapping from the
index. -/
def FaissStore.load (st : FaissStore) (f : FaissFiles) : FaissStore :=
  let base : FaissStore :=
    { st with index := f.indexBlob,
              trained_flag := f.indexBlob.is_trained,
              id_to_vector := f.idsFile,
              staging := f.idsFile,
              next_id := f.idsFile.foldl (fun n r => max n (r.1 + 1)) 1 }
  { base with
      faiss_to_custom_id :=
        match f.orderFile with
        | some order => order
        | none => base.rebuild_faiss_mapping_from_index }

/-! ## Operation languages over the FAISS-build store -/

/-- An insertion-era operation against one store: the four insert entry
points (`SageDB::add`/`add_batch` delegate to `VectorStore::add_vector`/
`add_vectors` after the same validation), deletion, and the two training
entry points. -/
inductive InsOp where
  | add (v : Vec)
  | addBatch (vs : List Vec)
  | rm (id : VectorId)
  | train (data : List Vec)
  | build
deriving DecidableEq, Repr

/-- One step: the resulting store together with the `VectorId`s the step
returned.  `SageDB::remove` touches only the metadata store, so `rm`
leaves the vector store unchanged and returns no id. -/
def runInsOp (st : FaissStore) : InsOp → FaissStore × List VectorId
  | .add v =>
    match st.add_vector v with
    | (.ok id, st') => (st', [id])
    | (.error _, st') => (st', [])
  | .addBatch vs =>
    match st.add_vectors vs with
    | (.ok ids, st') => (st', ids)
    | (.error _, st') => (st', [])
  | .rm _ => (st, [])
  | .train data => (st.train_index data, [])
  | .build => (st.build_index, [])

/-- Run a sequence of operations, concatenating the returned ids in
call order. -/
def runInsOps (st : FaissStore) : List InsOp → FaissStore × List VectorId
  | [] => (st, [])
  | op :: ops =>
    let (st', ids) := runInsOp st op
    let (st'', rest) := runInsOps st' ops
    (st'', ids ++ rest)

lemma transfer_next_id (st : FaissStore) :
    st.transfer_vectors_to_faiss.next_id = st.next_id := by
  unfold FaissStore.transfer_vectors_to_faiss
  split <;> rfl

lemma train_index_with_data_next_id (st : FaissStore) (d : List Vec) :
    (st.train_index_with_data d).next_id = st.next_id := by
  unfold FaissStore.train_index_with_data
  split
  · rfl
  · rw [transfer_next_id]

lemma train_index_next_id (st : FaissStore) (d : List Vec) :
    (st.train_index d).next_id = st.next_id := by
  unfold FaissStore.train_index
  split
  · rw [train_index_with_data_next_id]
  · rfl

lemma train_index_internal_next_id (st : FaissStore) :
    st.train_index_internal.next_id = st.next_id := by
  unfold FaissStore.train_index_internal
  split
  · rfl
  · rw [transfer_next_id]

lemma build_index_next_id (st : FaissStore) :
    st.build_index.next_id = st.next_id := by
  unfold FaissStore.build_index
  split
  · rw [train_index_internal_next_id]
  · rfl

lemma runInsOp_spec (st : FaissStore) (op : InsOp) :
    List.Pairwise (· < ·) (runInsOp st op).2 ∧
    st.next_id ≤ (runInsOp st op).1.next_id ∧
    ∀ i ∈ (runInsOp st op).2, st.next_id ≤ i ∧ i < (runInsOp st op).1.next_id := by
  cases op with
  | add v =>
    simp only [runInsOp, FaissStore.add_vector]
    cases h : validate_vector st.config v with
    | error e => simp
    | ok u =>
      simp only [FaissStore.add_vector_impl]
      split <;> simp
  | addBatch vs =>
    by_cases hv : (vs.any fun v => decide (v.length ≠ st.config.dimension)) = true
    · simp only [runInsOp, FaissStore.add_vectors, if_pos hv]
      simp
    · simp only [runInsOp, FaissStore.add_vectors, if_neg hv, FaissStore.add_vectors_impl]
      split <;>
      · refine ⟨List.pairwise_lt_range' _ _, by simp, ?_⟩
        intro i hi
        have := List.mem_range'_1.mp hi
        simpa using this
  | rm id => simp [runInsOp]
  | train data => simp [runInsOp, train_index_next_id]
  | build => simp [runInsOp, build_index_next_id]

lemma runInsOps_spec (ops : List InsOp) (st : FaissStore) :
    List.Pairwise (· < ·) (runInsOps st ops).2 ∧
    st.next_id ≤ (runInsOps st ops).1.next_id ∧
    ∀ i ∈ (runInsOps st ops).2, st.next_id ≤ i ∧ i < (runInsOps st ops).1.next_id := by
  induction ops generalizing st with
  | nil => simp [runInsOps]
  | cons op ops ih =>
    obtain ⟨h₁, h₂, h₃⟩ := runInsOp_spec st op
    obtain ⟨g₁, g₂, g₃⟩ := ih (runInsOp st op).1
    simp only [runInsOps]
    refine ⟨?_, le_trans h₂ g₂, ?_⟩
    · rw [List.pairwise_append]
      refine ⟨h₁, g₁, ?_⟩
      intro a ha b hb
      exact lt_of_lt_of_le (h₃ a ha).2 (g₃ b hb).1
    · intro i hi
      rcases List.mem_append.mp hi with hi | hi
      · exact ⟨(h₃ i hi).1, lt_of_lt_of_le (h₃ i hi).2 g₂⟩
      · exact ⟨le_trans h₂ (g₃ i hi).1, (g₃ i hi).2⟩

/-! ## Lifecycle operations (including persistence) and vector placement -/

/-- A lifecycle operation: insert, train, build, or a save-then-load
round trip of the store's own artifacts. -/
inductive LifeOp where
  | add (v : Vec)
  | addBatch (vs : List Vec)
  | train (data : List Vec)
  | build
  | saveload
deriving DecidableEq, Repr

/-- Run one lifecycle operation. -/
def runLifeOp (st : FaissStore) : LifeOp → FaissStore
  | .add v => (st.add_vector v).2
  | .addBatch vs => (st.add_vectors vs).2
  | .train data => st.train_index data
  | .build => st.build_index
  | .saveload => st.load st.save

/-- Run a sequence of lifecycle operations. -/
def runLifeOps (st : FaissStore) : List LifeOp → FaissStore
  | [] => st
  | op :: ops => runLifeOps (runLifeOp st op) ops

/-- `id` is present in the store: `id_to_vector_` holds its vector. -/
def FaissStore.present (st : FaissStore) (id : VectorId) : Prop :=
  id ∈ st.id_to_vector.map (·.1)

/-- `id` has a row in the underlying ANN index (its row is attributed to
it through `faiss_to_custom_id_`). -/
def FaissStore.in_index (st : FaissStore) (id : VectorId) : Prop :=
  id ∈ st.faiss_to_custom_id

/-- `id` sits in the pre-training staging buffer `vectors_`. -/
def FaissStore.in_staging (st : FaissStore) (id : VectorId) : Prop :=
  id ∈ st.staging.map (·.1)

instance (st : FaissStore) (id : VectorId) : Decidable (st.present id) := by
  unfold FaissStore.present; infer_instance

instance (st : FaissStore) (id : VectorId) : Decidable (st.in_index id) := by
  unfold FaissStore.in_index; infer_instance

instance (st : FaissStore) (id : VectorId) : Decidable (st.in_staging id) := by
  unfold FaissStore.in_staging; infer_instance

/-- The invariant as the spec words it: every present id is in exactly
one of the two places. -/
def exactly_one_place (st : FaissStore) : Prop :=
  ∀ id, st.present id → (st.in_index id ↔ ¬ st.in_staging id)

/-- The weakening that actually holds: every present id is in at least
one of the two places. -/
def at_least_one_place (st : FaissStore) : Prop :=
  ∀ id, st.present id → st.in_index id ∨ st.in_staging id

lemma transfer_at_least_one (st : FaissStore) (h : at_least_one_place st) :
    at_least_one_place st.transfer_vectors_to_faiss := by
  unfold FaissStore.transfer_vectors_to_faiss
  split
  · exact h
  · intro id hid
    have hid' : st.present id := hid
    rcases h id hid' with hin | hst
    · left
      simp only [FaissStore.in_index] at hin ⊢
      exact List.mem_append.mpr (Or.inl hin)
    · left
      simp only [FaissStore.in_index, FaissStore.in_staging] at hst ⊢
      exact List.mem_append.mpr (Or.inr hst)

lemma train_with_data_at_least_one (st : FaissStore) (d : List Vec)
    (h : at_least_one_place st) :
    at_least_one_place (st.train_index_with_data d) := by
  unfold FaissStore.train_index_with_data
  split
  · exact h
  · exact transfer_at_least_one _ (fun id hid => h id hid)

lemma train_index_at_least_one (st : FaissStore) (d : List Vec)
    (h : at_least_one_place st) :
    at_least_one_place (st.train_index d) := by
  unfold FaissStore.train_index
  split
  · exact train_with_data_at_least_one st d h
  · exact h

lemma train_internal_at_least_one (st : FaissStore) (h : at_least_one_place st) :
    at_least_one_place st.train_index_internal := by
  unfold FaissStore.train_index_internal
  split
  · exact h
  · exact transfer_at_least_one _ (fun id hid => h id hid)

lemma build_index_at_least_one (st : FaissStore) (h : at_least_one_place st) :
    at_least_one_place st.build_index := by
  unfold FaissStore.build_index
  split
  · exact train_internal_at_least_one st h
  · exact h

lemma mem_fst_append {l₁ l₂ : List (VectorId × Vec)} {id : VectorId} :
    id ∈ (l₁ ++ l₂).map (·.1) ↔ id ∈ l₁.map (·.1) ∨ id ∈ l₂.map (·.1) := by
  simp

lemma mem_fst_zip {ids : List VectorId} {vs : List Vec} {id : VectorId}
    (h : id ∈ (ids.zip vs).map (·.1)) : id ∈ ids := by
  rcases List.mem_map.mp h with ⟨p, hp, hfst⟩
  exact hfst ▸ (List.of_mem_zip hp).1

lemma add_vector_impl_at_least_one (st : FaissStore) (v : Vec)
    (h : at_least_one_place st) :
    at_least_one_place (st.add_vector_impl v).2 := by
  by_cases ht : st.index.is_trained = true
  · intro id hid
    simp only [FaissStore.add_vector_impl, if_pos ht, FaissStore.present] at hid
    rcases mem_fst_append.mp hid with hid | hid
    · rcases h id hid with hin | hst
      · exact Or.inl (by
          simp only [FaissStore.add_vector_impl, if_pos ht, FaissStore.in_index]
          exact List.mem_append.mpr (Or.inl hin))
      · exact Or.inr (by
          simpa only [FaissStore.add_vector_impl, if_pos ht, FaissStore.in_staging]
            using hst)
    · refine Or.inl ?_
      simp only [FaissStore.add_vector_impl, if_pos ht, FaissStore.in_index]
      simp only [List.map_cons, List.map_nil, List.mem_cons, List.not_mem_nil,
        or_false] at hid
      simp [hid]
  · intro id hid
    simp only [FaissStore.add_vector_impl, if_neg ht, FaissStore.present] at hid
    rcases mem_fst_append.mp hid with hid | hid
    · rcases h id hid with hin | hst
      · exact Or.inl (by
          simpa only [FaissStore.add_vector_impl, if_neg ht, FaissStore.in_index]
            using hin)
      · exact Or.inr (by
          simp only [FaissStore.add_vector_impl, if_neg ht, FaissStore.in_staging]
          exact mem_fst_append.mpr (Or.inl hst))
    · refine Or.inr ?_
      simp only [FaissStore.add_vector_impl, if_neg ht, FaissStore.in_staging]
      exact mem_fst_append.mpr (Or.inr hid)

lemma add_vector_at_least_one (st : FaissStore) (v : Vec) (h : at_least_one_place st) :
    at_least_one_place (st.add_vector v).2 := by
  unfold FaissStore.add_vector
  cases hv : validate_vector st.config v with
  | error e => exact h
  | ok u => exact add_vector_impl_at_least_one st v h

lemma add_vectors_impl_at_least_one (st : FaissStore) (vs : List Vec)
    (h : at_least_one_place st) :
    at_least_one_place (st.add_vectors_impl vs).2 := by
  by_cases ht : st.index.is_trained = true
  · intro id hid
    simp only [FaissStore.add_vectors_impl, if_pos ht, FaissStore.present] at hid
    rcases mem_fst_append.mp hid with hid | hid
    · rcases h id hid with hin | hst
      · exact Or.inl (by
          simp only [FaissStore.add_vectors_impl, if_pos ht, FaissStore.in_index]
          exact List.mem_append.mpr (Or.inl hin))
      · exact Or.inr (by
          simpa only [FaissStore.add_vectors_impl, if_pos ht, FaissStore.in_staging]
            using hst)
    · refine Or.inl ?_
      simp only [FaissStore.add_vectors_impl, if_pos ht, FaissStore.in_index]
      exact List.mem_append.mpr (Or.inr (mem_fst_zip hid))
  · intro id hid
    simp only [FaissStore.add_vectors_impl, if_neg ht, FaissStore.present] at hid
    rcases mem_fst_append.mp hid with hid | hid
    · rcases h id hid with hin | hst
      · exact Or.inl (by
          simpa only [FaissStore.add_vectors_impl, if_neg ht, FaissStore.in_index]
            using hin)
      · exact Or.inr (by
          simp only [FaissStore.add_vectors_impl, if_neg ht, FaissStore.in_staging]
          exact mem_fst_append.mpr (Or.inl hst))
    · refine Or.inr ?_
      simp only [FaissStore.add_vectors_impl, if_neg ht, FaissStore.in_staging]
      exact mem_fst_append.mpr (Or.inr hid)

lemma add_vectors_at_least_one (st : FaissStore) (vs : List Vec)
    (h : at_least_one_place st) :
    at_least_one_place (st.add_vectors vs).2 := by
  unfold FaissStore.add_vectors
  split
  · exact h
  · exact add_vectors_impl_at_least_one st vs h

lemma load_at_least_one (st : FaissStore) (f : FaissFiles) :
    at_least_one_place (st.load f) := by
  intro id hid
  right
  exact hid

lemma runLifeOp_at_least_one (st : FaissStore) (op : LifeOp)
    (h : at_least_one_place st) : at_least_one_place (runLifeOp st op) := by
  cases op with
  | add v => exact add_vector_at_least_one st v h
  | addBatch vs => exact add_vectors_at_least_one st vs h
  | train data => exact train_index_at_least_one st data h
  | build => exact build_index_at_least_one st h
  | saveload => exact load_at_least_one st st.save

lemma runLifeOps_at_least_one (ops : List LifeOp) (st : FaissStore)
    (h : at_least_one_place st) : at_least_one_place (runLifeOps st ops) := by
  induction ops generalizing st with
  | nil => exact h
  | cons op ops ih => exact ih _ (runLifeOp_at_least_one st op h)

/-! ## Claim theorems -/

/-- C2: for every sequence of insertions into one store (via `add_vector`,
`add_vectors`, `add`, `add_batch`), the returned `VectorId`s are strictly
positive, strictly increasing in insertion order, and pairwise distinct;
an id once assigned is never assigned again within the store's lifetime,
even after deletion (`rm` steps may occur anywhere in the sequence). -/
theorem C2_insert_ids_strictly_increasing (cfg : DatabaseConfig) (ops : List InsOp) :
    List.Pairwise (· < ·) (runInsOps (FaissStore.init cfg) ops).2 ∧
    ∀ i ∈ (runInsOps (FaissStore.init cfg) ops).2, 0 < i := by
  obtain ⟨h₁, _, h₃⟩ := runInsOps_spec ops (FaissStore.init cfg)
  exact ⟨h₁, fun i hi => Nat.lt_of_lt_of_le Nat.zero_lt_one (h₃ i hi).1⟩

/-- C8, counterexample: add one vector to a flat store (its row enters the
index), save and load: the `.ids` records are read back into both
`id_to_vector_` and the staging buffer `vectors_`, while the mapping still
attributes the FAISS row to the same id — the vector is now in both
places, so "exactly one place" fails at this reachable state. -/
theorem C8_counterexample_load_puts_vector_in_both_places :
    ¬ exactly_one_place
        (runLifeOps (FaissStore.init ⟨1, IndexType.FLAT, DistanceMetric.L2, 100⟩)
          [LifeOp.add [1], LifeOp.saveload]) := by
  intro h
  have h1 := h 1 (by decide)
  exact h1.mp (by decide) (by decide)

/-- C8, amended: in every state reachable by add, train, build_index and
save/load round trips, each id present in the store has its vector in at
least one of the two places — the ANN index (through the row→id mapping)
or the staging buffer; the original "never both" half fails after `load`
(see the counterexample). -/
theorem C8_amended_vector_in_index_or_staging (cfg : DatabaseConfig)
    (ops : List LifeOp) :
    at_least_one_place (runLifeOps (FaissStore.init cfg) ops) := by
  apply runLifeOps_at_least_one
  intro id hid
  simp only [FaissStore.init, FaissStore.present, List.map_nil] at hid
  exact absurd hid (List.not_mem_nil id)

lemma scoreEntries_ok (metric : DistanceMetric) (q : Vec)
    (entries : List (VectorId × Vec))
    (h : ∀ e ∈ entries, (e.2 : Vec).length = q.length) :
    ∃ l, scoreEntries metric q entries = .ok l := by
  induction entries with
  | nil => exact ⟨[], rfl⟩
  | cons p rest ih =>
    obtain ⟨l, hl⟩ := ih (fun e he => h e (List.mem_cons_of_mem p he))
    have hp : (p.2 : Vec).length = q.length := h p (List.mem_cons_self p rest)
    refine ⟨(((compute_distance metric q p.2).toOption.getD 0), p.1) :: l, ?_⟩
    unfold scoreEntries
    unfold compute_distance
    rw [if_neg (by omega)]
    rw [hl]
    rfl

lemma search_fallback_ok (metric : DistanceMetric) (entries : List (VectorId × Vec))
    (q : Vec) (p : SearchParams)
    (h : ∀ e ∈ entries, (e.2 : Vec).length = q.length) :
    ∃ rs, search_fallback metric entries q p = .ok rs := by
  obtain ⟨l, hl⟩ := scoreEntries_ok metric q entries h
  exact ⟨_, by unfold search_fallback; rw [hl]⟩

/-- C1, counterexample: an IVF store with one staged vector.  The staged
data makes the brute-force fallback perfectly possible (it returns the
stored id), yet the engine-level `search` raises `NotTrained` — it never
attempts the fallback when an index object exists. -/
theorem C1_counterexample_not_trained_despite_fallback :
    FaissStore.search (fun _ _ _ => [])
        ((FaissStore.init ⟨1, IndexType.IVF_FLAT, DistanceMetric.L2, 4⟩).add_vector [1]).2
        [0] { k := 1 } = .error SageErr.notTrained ∧
    search_fallback DistanceMetric.L2
        ((FaissStore.init ⟨1, IndexType.IVF_FLAT, DistanceMetric.L2, 4⟩).add_vector [1]).2.id_to_vector
        [0] { k := 1 } = .ok [{ id := 1, score := 1 }] := by
  constructor
  · rfl
  · norm_num [search_fallback, scoreEntries, compute_distance, sortBy, sortedInsert,
      fallbackLe, FaissStore.init, FaissStore.add_vector, FaissStore.add_vector_impl,
      validate_vector, create_index]

/-- C1, amended: in the FAISS build, engine-level `search` on a valid
query raises `NotTrained` whenever the index object is untrained — even
though the staged vectors would permit a brute-force answer; the
brute-force path serves `search` only in the build without an ANN
library, where a search over dimension-valid stored vectors always
succeeds. -/
theorem C1_amended_search_untrained_raises (ann : FaissIndex → Vec → Nat → List (Int × ℚ))
    (st : FaissStore) (q : Vec) (p : SearchParams)
    (fst : FallbackStore) (q' : Vec) (p' : SearchParams)
    (h1 : q.length = st.config.dimension)
    (h2 : st.is_trained = false)
    (h3 : q'.length = fst.config.dimension)
    (h4 : ∀ e ∈ fst.vectors, (e.2 : Vec).length = fst.config.dimension) :
    FaissStore.search ann st q p = .error SageErr.notTrained ∧
    ∃ rs, fst.search q' p' = .ok rs := by
  constructor
  · unfold FaissStore.search validate_vector
    rw [if_neg (by omega)]
    simp [h2]
  · obtain ⟨rs, hrs⟩ := search_fallback_ok fst.config.metric fst.vectors q' p'
      (fun e he => by rw [h4 e he, h3])
    refine ⟨rs, ?_⟩
    unfold FallbackStore.search validate_vector
    rw [if_neg (by omega)]
    exact hrs

/-- C1 witness: the amended theorem applied to the staged IVF store of
the counterexample and to a one-vector fallback-build store. -/
theorem C1_amended_search_untrained_raises_witness :
    FaissStore.search (fun _ _ _ => [])
        ((FaissStore.init ⟨1, IndexType.IVF_FLAT, DistanceMetric.L2, 4⟩).add_vector [1]).2
        [0] { k := 1 } = .error SageErr.notTrained ∧
    ∃ rs, FallbackStore.search
        { config := ⟨1, IndexType.FLAT, DistanceMetric.L2, 100⟩,
          next_id := 2, vectors := [(1, [1])] } [0] { k := 1 } = .ok rs :=
  C1_amended_search_untrained_raises (fun _ _ _ => []) _ [0] { k := 1 } _ [0] { k := 1 }
    (by decide) (by decide) (by decide) (by decide)

/-- C6, counterexample: an untrained IVF store holding one vector in
`id_to_vector_`.  `train_index` with empty training data does nothing —
it does not train from `id_to_vector_` as the claim states (implicit
training from `id_to_vector_` happens only through `build_index`). -/
theorem C6_counterexample_empty_train_is_noop :
    (((FaissStore.init ⟨1, IndexType.IVF_FLAT, DistanceMetric.L2, 4⟩).add_vector [1]).2.train_index []
      = ((FaissStore.init ⟨1, IndexType.IVF_FLAT, DistanceMetric.L2, 4⟩).add_vector [1]).2) ∧
    ((FaissStore.init ⟨1, IndexType.IVF_FLAT, DistanceMetric.L2, 4⟩).add_vector [1]).2.id_to_vector ≠ [] ∧
    (((FaissStore.init ⟨1, IndexType.IVF_FLAT, DistanceMetric.L2, 4⟩).add_vector [1]).2.train_index []).is_trained = false := by
  refine ⟨rfl, by decide, by decide⟩

/-- C6, amended: `train_index` with non-empty explicit data trains the
index on that data (when not already trained), after which the staging
buffer drains into the index — the staged ids are appended to the row→id
mapping in staging order and the staged vectors become index rows — while
`train_index` with empty training data is a no-op (training from the
contents of `id_to_vector_` happens only via `build_index`). -/
theorem C6_amended_train_index_explicit_data (st : FaissStore) (data : List Vec)
    (h1 : ¬ data.isEmpty) (h2 : st.trained_flag = false) :
    st.train_index [] = st ∧
    (st.train_index data).index.is_trained = true ∧
    (st.train_index data).staging = [] ∧
    (st.train_index data).faiss_to_custom_id
      = st.faiss_to_custom_id ++ st.staging.map (·.1) ∧
    (st.train_index data).index.rows = st.index.rows ++ st.staging.map (·.2) ∧
    (st.train_index data).id_to_vector = st.id_to_vector := by
  refine ⟨rfl, ?_⟩
  unfold FaissStore.train_index
  rw [if_pos h1]
  unfold FaissStore.train_index_with_data
  rw [if_neg (by simp [h1, h2])]
  unfold FaissStore.transfer_vectors_to_faiss
  by_cases hs : st.staging.isEmpty = true
  · rw [if_pos (by simp [hs])]
    have : st.staging = [] := List.isEmpty_iff.mp hs
    simp [this]
  · rw [if_neg (by simp [hs])]
    simp

/-- C6 witness: the amended theorem applied to the staged IVF store with
explicit training data `[[0]]`. -/
theorem C6_amended_train_index_explicit_data_witness :
    (((FaissStore.init ⟨1, IndexType.IVF_FLAT, DistanceMetric.L2, 4⟩).add_vector [1]).2.train_index []
      = ((FaissStore.init ⟨1, IndexType.IVF_FLAT, DistanceMetric.L2, 4⟩).add_vector [1]).2) ∧
    ((((FaissStore.init ⟨1, IndexType.IVF_FLAT, DistanceMetric.L2, 4⟩).add_vector [1]).2.train_index [[0]]).index.is_trained = true) ∧
    ((((FaissStore.init ⟨1, IndexType.IVF_FLAT, DistanceMetric.L2, 4⟩).add_vector [1]).2.train_index [[0]]).staging = []) ∧
    ((((FaissStore.init ⟨1, IndexType.IVF_FLAT, DistanceMetric.L2, 4⟩).add_vector [1]).2.train_index [[0]]).faiss_to_custom_id
      = ((FaissStore.init ⟨1, IndexType.IVF_FLAT, DistanceMetric.L2, 4⟩).add_vector [1]).2.faiss_to_custom_id
        ++ ((FaissStore.init ⟨1, IndexType.IVF_FLAT, DistanceMetric.L2, 4⟩).add_vector [1]).2.staging.map (·.1)) ∧
    ((((FaissStore.init ⟨1, IndexType.IVF_FLAT, DistanceMetric.L2, 4⟩).add_vector [1]).2.train_index [[0]]).index.rows
      = ((FaissStore.init ⟨1, IndexType.IVF_FLAT, DistanceMetric.L2, 4⟩).add_vector [1]).2.index.rows
        ++ ((FaissStore.init ⟨1, IndexType.IVF_FLAT, DistanceMetric.L2, 4⟩).add_vector [1]).2.staging.map (·.2)) ∧
    ((((FaissStore.init ⟨1, IndexType.IVF_FLAT, DistanceMetric.L2, 4⟩).add_vector [1]).2.train_index [[0]]).id_to_vector
      = ((FaissStore.init ⟨1, IndexType.IVF_FLAT, DistanceMetric.L2, 4⟩).add_vector [1]).2.id_to_vector) :=
  C6_amended_train_index_explicit_data _ [[0]] (by decide) (by decide)

/-- C4: brute-force search under the cosine metric at a concrete failing
input.  Stored vectors `[1]` (id 1, cosine distance 0 to the query) and
`[-1]` (id 2, cosine distance 2), query `[1]`, `k = 2`: the code sets
`ascending = (metric == L2)`, so the cosine results come back sorted
**descending** by cosine distance — the farthest vector first — where the
claim (and the spec's sign convention) requires ascending, best first. -/
theorem C4_cosine_fallback_sorts_descending :
    FallbackStore.search
        { config := ⟨1, IndexType.FLAT, DistanceMetric.COSINE, 100⟩,
          next_id := 3, vectors := [(1, [1]), (2, [-1])] }
        [1] { k := 2 }
      = .ok [{ id := 2, score := 2 }, { id := 1, score := 0 }] := by
  norm_num [FallbackStore.search, validate_vector, search_fallback, scoreEntries,
    compute_distance, sortBy, sortedInsert, fallbackLe]
  rfl

lemma zip_self_eq {α : Type} (l : List α) : ∀ pr ∈ l.zip l, pr.1 = pr.2 := by
  induction l with
  | nil => intro pr h; exact absurd h (List.not_mem_nil pr)
  | cons a t ih =>
    intro pr h
    rcases List.mem_cons.mp h with rfl | h
    · rfl
    · exact ih pr h

/-- C3: saving a store and loading the file set into a fresh instance
(created with any config — the persisted config file overrides it) yields
a store whose `search` agrees with the original on every query: literally
the same result value, hence the same ids in the same order with scores
within `1e-6`.  The hypothesis states the facade invariant that the
vector store was constructed with the facade's config, true of every
reachable `SageDB`. -/
theorem C3_save_load_preserves_search (db : SageDB) (c₀ : DatabaseConfig)
    (q : Vec) (p : SearchParams)
    (h : db.vector_store.config = db.config) :
    ((SageDB.init c₀).load db.save).search q p = db.search q p ∧
    ∀ rs rs', db.search q p = .ok rs → ((SageDB.init c₀).load db.save).search q p = .ok rs' →
      rs'.map (·.id) = rs.map (·.id) ∧
      ∀ pr ∈ rs'.zip rs, |(pr.1 : QueryResult).score - (pr.2 : QueryResult).score| ≤ 1 / 1000000 := by
  have hsearch : ((SageDB.init c₀).load db.save).search q p = db.search q p := by
    simp only [SageDB.load, SageDB.save, SageDB.init, FallbackStore.load,
      FallbackStore.init, MetadataStore.load, MetadataStore.save, FallbackStore.save,
      Option.getD_some]
    simp only [SageDB.search, SageDB.validate_dimension, QueryEngine.search,
      FallbackStore.search, validate_vector, MetadataStore.get_metadata, h]
  refine ⟨hsearch, ?_⟩
  intro rs rs' h1 h2
  rw [hsearch, h1] at h2
  cases h2
  refine ⟨rfl, ?_⟩
  intro pr hpr
  rw [zip_self_eq rs pr hpr]
  simp

/-- C3 witness: the round trip of a store holding `[1]` compared against
itself on the query `[0]`. -/
theorem C3_save_load_preserves_search_witness :
    (((SageDB.init ⟨1, IndexType.FLAT, DistanceMetric.L2, 100⟩).load
        (((SageDB.init ⟨1, IndexType.FLAT, DistanceMetric.L2, 100⟩).add [1] []).2.save)).search
        [0] { k := 1 }
      = (((SageDB.init ⟨1, IndexType.FLAT, DistanceMetric.L2, 100⟩).add [1] []).2.search
        [0] { k := 1 })) ∧
    ∀ rs rs',
      (((SageDB.init ⟨1, IndexType.FLAT, DistanceMetric.L2, 100⟩).add [1] []).2.search
        [0] { k := 1 }) = .ok rs →
      (((SageDB.init ⟨1, IndexType.FLAT, DistanceMetric.L2, 100⟩).load
        (((SageDB.init ⟨1, IndexType.FLAT, DistanceMetric.L2, 100⟩).add [1] []).2.save)).search
        [0] { k := 1 }) = .ok rs' →
      rs'.map (·.id) = rs.map (·.id) ∧
      ∀ pr ∈ rs'.zip rs, |(pr.1 : QueryResult).score - (pr.2 : QueryResult).score| ≤ 1 / 1000000 :=
  C3_save_load_preserves_search
    ((SageDB.init ⟨1, IndexType.FLAT, DistanceMetric.L2, 100⟩).add [1] []).2
    ⟨1, IndexType.FLAT, DistanceMetric.L2, 100⟩ [0] { k := 1 } rfl

/-- C5: every API entry point handed a vector of the wrong length raises
`DimensionMismatch` at once, and the store (vector store and metadata
store alike) is left exactly as it was: `add`, `add_batch` (with aligned
or absent metadata), `search`, `update` and `train_index`. -/
theorem C5_dimension_mismatch_rejected_without_mutation (db : SageDB)
    (v : Vec) (md : Metadata) (vs : List Vec) (mds : List Metadata)
    (q : Vec) (p : SearchParams) (id : VectorId) (td : List Vec)
    (hv : v.length ≠ db.config.dimension)
    (hvs : ∃ w ∈ vs, w.length ≠ db.config.dimension)
    (hmds : mds.isEmpty ∨ vs.length = mds.length)
    (hq : q.length ≠ db.config.dimension)
    (htd : ∃ w ∈ td, w.length ≠ db.config.dimension) :
    db.add v md = (.error .dimensionMismatch, db) ∧
    db.add_batch vs mds = (.error .dimensionMismatch, db) ∧
    db.search q p = .error .dimensionMismatch ∧
    db.update id v md = (.error .dimensionMismatch, db) ∧
    db.train_index td = (.error .dimensionMismatch, db) := by
  have hany : (vs.any fun w => decide (w.length ≠ db.config.dimension)) = true := by
    obtain ⟨w, hw, hwn⟩ := hvs
    exact List.any_eq_true.mpr ⟨w, hw, by simpa using hwn⟩
  refine ⟨?_, ?_, ?_, ?_, ?_⟩
  · unfold SageDB.add SageDB.validate_dimension
    rw [if_pos hv]
  · unfold SageDB.add_batch
    have hfirst : (if mds.isEmpty then Except.ok ()
        else SageDB.ensure_consistent_metadata vs mds) = (.ok () : Except SageErr Unit) := by
      by_cases hempty : mds.isEmpty
      · rw [if_pos hempty]
      · rw [if_neg hempty]
        unfold SageDB.ensure_consistent_metadata
        rcases hmds with hm | hm
        · exact absurd hm hempty
        · rw [if_neg (by omega)]
    rw [hfirst, if_pos hany]
  · unfold SageDB.search SageDB.validate_dimension
    rw [if_pos hq]
  · unfold SageDB.update SageDB.validate_dimension
    rw [if_pos hv]
  · unfold SageDB.train_index
    obtain ⟨w, hw, hwn⟩ := htd
    rw [if_pos]
    constructor
    · simp only [List.isEmpty_iff]
      exact fun hc => absurd (hc ▸ hw) (List.not_mem_nil w)
    · exact List.any_eq_true.mpr ⟨w, hw, by simpa using hwn⟩

/-- C5 witness: a dimension-2 store handed one-dimensional vectors
through every entry point. -/
theorem C5_dimension_mismatch_rejected_without_mutation_witness :
    ((SageDB.init ⟨2, IndexType.FLAT, DistanceMetric.L2, 100⟩).add [1] []
      = (.error .dimensionMismatch, SageDB.init ⟨2, IndexType.FLAT, DistanceMetric.L2, 100⟩)) ∧
    ((SageDB.init ⟨2, IndexType.FLAT, DistanceMetric.L2, 100⟩).add_batch [[1]] []
      = (.error .dimensionMismatch, SageDB.init ⟨2, IndexType.FLAT, DistanceMetric.L2, 100⟩)) ∧
    ((SageDB.init ⟨2, IndexType.FLAT, DistanceMetric.L2, 100⟩).search [1] { k := 1 }
      = .error .dimensionMismatch) ∧
    ((SageDB.init ⟨2, IndexType.FLAT, DistanceMetric.L2, 100⟩).update 1 [1] []
      = (.error .dimensionMismatch, SageDB.init ⟨2, IndexType.FLAT, DistanceMetric.L2, 100⟩)) ∧
    ((SageDB.init ⟨2, IndexType.FLAT, DistanceMetric.L2, 100⟩).train_index [[1]]
      = (.error .dimensionMismatch, SageDB.init ⟨2, IndexType.FLAT, DistanceMetric.L2, 100⟩)) :=
  C5_dimension_mismatch_rejected_without_mutation _ [1] [] [[1]] [] [1] { k := 1 } 1 [[1]]
    (by decide) (by decide) (Or.inl rfl) (by decide) (by decide)

lemma find?_of_filter_out (l : List (VectorId × Metadata)) (id : VectorId) :
    (l.filter (fun e => e.1 ≠ id)).find? (fun e => e.1 = id) = none := by
  induction l with
  | nil => rfl
  | cons e t ih =>
    by_cases hc : e.1 = id
    · simp [List.filter_cons, hc, ih]
    · simp [List.filter_cons, hc, List.find?_cons, ih]

/-- C7, counterexample: remove id 1 from a store holding vector `[1]`
under that id (with metadata).  A subsequent search still returns id 1 —
nothing is tombstoned and nothing filters the removed id from results —
even though the metadata was deleted immediately. -/
theorem C7_counterexample_removed_id_still_in_results :
    (((((SageDB.init ⟨1, IndexType.FLAT, DistanceMetric.L2, 100⟩).add [1]
          [("color", "red")]).2.remove 1).2.search [1] { k := 1 })
      = .ok [{ id := 1, score := 0 }]) ∧
    (((((SageDB.init ⟨1, IndexType.FLAT, DistanceMetric.L2, 100⟩).add [1]
          [("color", "red")]).2.remove 1).2.get_metadata 1) = none) := by
  constructor
  · norm_num [SageDB.init, SageDB.add, SageDB.remove, SageDB.search,
      SageDB.validate_dimension, QueryEngine.search, FallbackStore.init,
      FallbackStore.add_vector, FallbackStore.search, validate_vector,
      search_fallback, scoreEntries, compute_distance, sortBy, sortedInsert,
      fallbackLe, MetadataStore.set_metadata, MetadataStore.remove_metadata]
  · rfl

/-- C7, amended: `remove(id)` deletes the id's metadata immediately and
returns `true`, but it leaves the vector store completely untouched — no
index row is removed, no tombstone is recorded, and nothing afterwards
filters the id out of search results (as the counterexample shows). -/
theorem C7_amended_remove_deletes_metadata_only (db : SageDB) (id : VectorId) :
    (db.remove id).1 = true ∧
    (db.remove id).2.vector_store = db.vector_store ∧
    (db.remove id).2.get_metadata id = none ∧
    (db.remove id).2.metadata_store = db.metadata_store.remove_metadata id := by
  refine ⟨rfl, rfl, ?_, rfl⟩
  unfold SageDB.remove SageDB.get_metadata MetadataStore.get_metadata
    MetadataStore.remove_metadata
  rw [find?_of_filter_out]
  rfl

/-- C9, counterexample: a store holding one vector, asked to `load` a
path with no files: the prior state is **not** preserved — `load`
unconditionally recreates fresh components, so the store comes back
empty even though it was not a fresh instance. -/
theorem C9_counterexample_load_discards_prior_state :
    ((((SageDB.init ⟨1, IndexType.FLAT, DistanceMetric.L2, 100⟩).add [1] []).2.load
        ⟨none, none, none⟩).size = 0) ∧
    ((((SageDB.init ⟨1, IndexType.FLAT, DistanceMetric.L2, 100⟩).add [1] []).2.size) = 1) :=
  ⟨rfl, rfl⟩

/-- C9, amended: `load` rebuilds the store from the files alone — its
result is the same as loading into a freshly created instance (only the
config survives, as default when the config file is absent); with the
vectors file missing or unreadable the result is the empty store, whether
or not the instance previously held data. -/
theorem C9_amended_load_rebuilds_from_files (db : SageDB) (files : SageFiles) :
    db.load files = (SageDB.init db.config).load files ∧
    (files.vectorsFile = none → (db.load files).size = 0) := by
  constructor
  · rfl
  · intro hnone
    simp [SageDB.load, SageDB.size, SageDB.init, FallbackStore.load,
      FallbackStore.init, hnone]

/-- C9 witness: the amended theorem at the one-vector store and the empty
file set. -/
theorem C9_amended_load_rebuilds_from_files_witness :
    ((((SageDB.init ⟨1, IndexType.FLAT, DistanceMetric.L2, 100⟩).add [1] []).2.load
        ⟨none, none, none⟩)
      = ((SageDB.init (((SageDB.init ⟨1, IndexType.FLAT, DistanceMetric.L2, 100⟩).add
          [1] []).2.config)).load ⟨none, none, none⟩)) ∧
    ((⟨none, none, none⟩ : SageFiles).vectorsFile = none →
      ((((SageDB.init ⟨1, IndexType.FLAT, DistanceMetric.L2, 100⟩).add [1] []).2.load
        ⟨none, none, none⟩).size = 0)) :=
  C9_amended_load_rebuilds_from_files _ ⟨none, none, none⟩

/-- C10: adding a vector with an empty metadata map records no metadata
entry at all: the metadata store is unchanged by the call, and when the
insert succeeds, `get_metadata` on the returned id reports absence
(provided the id had no pre-existing entry, true of every id the store
assigns).  Supplying the empty map is thus indistinguishable from
supplying no metadata (the C++ default argument is the empty map). -/
theorem C10_add_empty_metadata_reports_absence (db : SageDB) (v : Vec)
    (hfresh : db.metadata_store.get_metadata db.vector_store.next_id = none) :
    (db.add v []).2.metadata_store = db.metadata_store ∧
    ∀ id, (db.add v []).1 = .ok id → (db.add v []).2.get_metadata id = none := by
  unfold SageDB.add SageDB.validate_dimension
  by_cases hval : v.length ≠ db.config.dimension
  · rw [if_pos hval]
    exact ⟨rfl, fun id h => by cases h⟩
  · rw [if_neg hval]
    unfold FallbackStore.add_vector validate_vector
    by_cases hval2 : v.length ≠ db.vector_store.config.dimension
    · rw [if_pos hval2]
      exact ⟨rfl, fun id h => by cases h⟩
    · rw [if_neg hval2]
      refine ⟨rfl, ?_⟩
      intro id h
      have : db.vector_store.next_id = id := by
        simpa using h
      unfold SageDB.get_metadata
      simpa using this ▸ hfresh

/-- C10 witness: add `[1]` with empty metadata to a fresh store; the
returned id 1 has no metadata entry. -/
theorem C10_add_empty_metadata_reports_absence_witness :
    (((SageDB.init ⟨1, IndexType.FLAT, DistanceMetric.L2, 100⟩).add [1] []).2.metadata_store
      = (SageDB.init ⟨1, IndexType.FLAT, DistanceMetric.L2, 100⟩).metadata_store) ∧
    ∀ id, ((SageDB.init ⟨1, IndexType.FLAT, DistanceMetric.L2, 100⟩).add [1] []).1 = .ok id →
      ((SageDB.init ⟨1, IndexType.FLAT, DistanceMetric.L2, 100⟩).add [1] []).2.get_metadata id
        = none :=
  C10_add_empty_metadata_reports_absence
    (SageDB.init ⟨1, IndexType.FLAT, DistanceMetric.L2, 100⟩) [1] rfl

end SageDBModel
